import Mathlib

/-
Verification of the OME companion-metadata tool (src/main.rs) against its
specification.  The Rust source is shallowly embedded below: every struct
becomes a Lean structure, `usize` becomes `Nat`, `f64` values (the physical
calibration sizes, which the core never computes with — it only stores and
copies them) become an abstract type parameter `R`, and every fatal path
(`panic!`, failed `assert_eq!`, `Option::unwrap` on `None`) becomes an
`Except.error`.
-/

namespace Omecat

deriving instance DecidableEq for Except

/-- Embeds `struct Uuid` from main.rs: a file reference carried by a plane
record, holding the `FileName` string. -/
structure Uuid where
  file_name : String
  deriving DecidableEq

/-- Embeds `struct TiffData` from main.rs: one plane-location record
("PlaneRef" in the spec).  All fields are optional, as in the source. -/
structure TiffData where
  ifd : Option Nat
  plane_count : Option Nat
  first_c : Option Nat
  first_z : Option Nat
  first_t : Option Nat
  uuid : Option Uuid
  deriving DecidableEq

/-- Embeds `struct LightPath` from main.rs: an empty (contentless) record. -/
structure LightPath where
  deriving DecidableEq

/-- Embeds `struct Channel` from main.rs. -/
structure Channel where
  id : String
  samples_per_pixel : Nat
  name : String
  light_path : LightPath
  deriving DecidableEq

/-- Embeds `struct Pixels` from main.rs ("PixelSet" in the spec).  `R` stands
for the Rust `f64` values stored in the optional physical-size fields. -/
structure Pixels (R : Type) where
  id : String
  pixel_type : String
  size_x : Nat
  size_y : Nat
  size_z : Nat
  size_c : Nat
  size_t : Nat
  physical_size_x : Option R
  physical_size_x_unit : Option String
  physical_size_y : Option R
  physical_size_y_unit : Option String
  physical_size_z : Option R
  physical_size_z_unit : Option String
  dimension_order : String
  channels : List Channel
  tiff_data : List TiffData
  deriving DecidableEq

/-- Embeds `struct Image` from main.rs. -/
structure Image (R : Type) where
  id : String
  name : String
  pixels : Pixels R
  deriving DecidableEq

/-- Embeds `struct OME` from main.rs ("Document" in the spec): the root
container holding the list of images. -/
structure OME (R : Type) where
  images : List (Image R)
  deriving DecidableEq

/-- Embeds `struct Selection` from main.rs: a (time, depth, channel)
selection triple. -/
structure Selection where
  t : Nat
  z : Nat
  c : Nat
  deriving DecidableEq

/-- Embeds `fn get_relative_ifd_index` from main.rs (the Plane-Index
Calculator, spec 4.1).  The Rust `panic!("Invalid dimension order")` on the
wildcard arm becomes `Except.error`. -/
def get_relative_ifd_index {R : Type} (selection : Selection) (pixels : Pixels R) :
    Except String Nat :=
  let size_t := pixels.size_t
  let size_c := pixels.size_c
  let size_z := pixels.size_z
  let t := selection.t
  let z := selection.z
  let c := selection.c
  match pixels.dimension_order with
  | "XYZCT" => Except.ok (z + (size_z * c) + (size_z * size_c * t))
  | "XYZTC" => Except.ok (z + (size_z * t) + (size_z * size_t * c))
  | "XYCTZ" => Except.ok (c + (size_c * t) + (size_c * size_t * z))
  | "XYCZT" => Except.ok (c + (size_c * z) + (size_c * size_z * t))
  | "XYTCZ" => Except.ok (t + (size_t * c) + (size_t * size_c * z))
  | "XYTZC" => Except.ok (t + (size_t * z) + (size_t * size_z * c))
  | _ => Except.error "Invalid dimension order"

/-- Embeds `struct StackConfig` from main.rs: the transformation
configuration.  `size_z` is the target depth count; `physical_size_z : R`
stands for the Rust `f64` step size. -/
structure StackConfig (R : Type) where
  size_z : Nat
  physical_size_z : R
  physical_size_z_unit : String
  filename_template : String
  deriving DecidableEq

/-- Decimal rendering of a natural number zero-padded on the left to at least
`width` digits: embeds Rust `format!("{:02}", n)` / `format!("{:03}", n)`. -/
def zeroPad (width n : Nat) : String :=
  let ds := Nat.toDigits 10 n
  String.mk (List.replicate (width - ds.length) '0' ++ ds)

/-- Replacement of every (leftmost, non-overlapping) occurrence of the
placeholder sequence `{z}` in a character list by `repl`: embeds the Rust
`str::replace("\x7bz\x7d", ...)` call specialised to its fixed pattern. -/
def replaceZChars (repl : List Char) : List Char → List Char
  | '{' :: 'z' :: '}' :: rest => repl ++ replaceZChars repl rest
  | c :: rest => c :: replaceZChars repl rest
  | [] => []

/-- String-level wrapper of `replaceZChars`. -/
def strReplaceZ (template repl : String) : String :=
  String.mk (replaceZChars repl.data template.data)

/-- Whether a character list contains an occurrence of the placeholder
sequence `{z}`. -/
def hasZ : List Char → Bool
  | '{' :: 'z' :: '}' :: _ => true
  | _ :: rest => hasZ rest
  | [] => false

/-- Embeds `StackConfig::filename` from main.rs (the Filename Policy, spec
4.3).  The Rust range match arms `1..=9`, `10..=99`, `100..=999` are mirrored
in order; the wildcard `panic!("Invalid size_z")` becomes `Except.error`. -/
def StackConfig.filename {R : Type} (cfg : StackConfig R) (z : Nat) :
    Except String String :=
  if 1 ≤ cfg.size_z ∧ cfg.size_z ≤ 9 then
    Except.ok (strReplaceZ cfg.filename_template (zeroPad 2 (z + 1)))
  else if 10 ≤ cfg.size_z ∧ cfg.size_z ≤ 99 then
    Except.ok (strReplaceZ cfg.filename_template (zeroPad 2 (z + 1)))
  else if 100 ≤ cfg.size_z ∧ cfg.size_z ≤ 999 then
    Except.ok (strReplaceZ cfg.filename_template (zeroPad 3 (z + 1)))
  else
    Except.error "Invalid size_z"

/-- One iteration of the transformer's inner loop body (main.rs lines
154-165): builds the `TiffData` record for target depth `z` and channel `c`.
As in the source, the calculator is invoked with `Selection { t: 0, z: 0, c }`
against `pixels` (which at that point still carries the original `size_z`),
and the filename is produced for depth `z`. -/
def mkTiffData {R : Type} (pixels : Pixels R) (cfg : StackConfig R) (z c : Nat) :
    Except String TiffData :=
  match get_relative_ifd_index { t := 0, z := 0, c := c } pixels with
  | Except.error e => Except.error e
  | Except.ok ifd =>
    match cfg.filename z with
    | Except.error e => Except.error e
    | Except.ok fname =>
      Except.ok
        { ifd := some ifd
          plane_count := some 1
          first_c := some c
          first_z := some z
          first_t := some 0
          uuid := some { file_name := fname } }

/-- The (z, c) iteration grid of the transformer's nested loops, in the
source's order: z outer over `0..nz`, c inner over `0..nc`. -/
def allPairs (nz nc : Nat) : List (Nat × Nat) :=
  (List.range nz).flatMap (fun z => (List.range nc).map (fun c => (z, c)))

/-- Sequential effectful map over a list in the `Except` monad; the first
error aborts, mirroring a Rust loop whose body can panic. -/
def mapExcept {α β : Type} (f : α → Except String β) : List α → Except String (List β)
  | [] => Except.ok []
  | x :: xs =>
    match f x with
    | Except.error e => Except.error e
    | Except.ok y =>
      match mapExcept f xs with
      | Except.error e => Except.error e
      | Except.ok ys => Except.ok (y :: ys)

/-- Embeds `fn to_multifile_companion_ome` from main.rs (the Companion
Transformer, spec 4.2), starting from the already-parsed document (XML
parsing is an external collaborator).  `src.images.first_mut().unwrap()` on
an empty image list and the failed `assert_eq!(size_t, 1)` become
`Except.error`; the loop over the depth×channel grid is `mapExcept` over
`allPairs`.  As in the source, the per-record computation reads the original
`pixels` (original `size_z`); `size_z` is set to the target and `tiff_data`
is wholesale-replaced only in the returned document. -/
def to_multifile_companion_ome {R : Type} (src : OME R) (cfg : StackConfig R) :
    Except String (OME R) :=
  match src.images with
  | [] => Except.error "called Option::unwrap on a None value"
  | image :: rest =>
    if image.pixels.size_t = 1 then
      match mapExcept
          (fun zc => mkTiffData image.pixels cfg zc.1 zc.2)
          (allPairs cfg.size_z image.pixels.channels.length) with
      | Except.error e => Except.error e
      | Except.ok tiff =>
        Except.ok
          { images :=
              { image with
                pixels :=
                  { image.pixels with
                    physical_size_z := some cfg.physical_size_z
                    physical_size_z_unit := some cfg.physical_size_z_unit
                    tiff_data := tiff
                    size_z := cfg.size_z } } :: rest }
    else
      Except.error "assertion failed: size_t == 1"

/-- The `PixelSet` of the first image of a document, when an image exists
(the transformer always acts on the first image). -/
def OME.firstPixels? {R : Type} (o : OME R) : Option (Pixels R) :=
  o.images.head?.map Image.pixels

/-- The document with the first image's plane list replaced by `l` (identity
on a document with no image). -/
def OME.withFirstTiff {R : Type} (o : OME R) (l : List TiffData) : OME R :=
  match o.images with
  | [] => o
  | im :: rest =>
    { images := { im with pixels := { im.pixels with tiff_data := l } } :: rest }

/-! ## The spec-side index formula (written from the spec's words, 4.1) -/

/-- The spec's plane-index formula for an order string axis1 axis2 axis3 with
sizes n1, n2, n3 and selection indices i1, i2, i3 reordered to match:
index = i1 + n1 * i2 + n1 * n2 * i3. -/
def formulaIndex (n1 n2 n3 i1 i2 i3 : Nat) : Nat :=
  i1 + n1 * i2 + n1 * n2 * i3

/-! ## Concrete instances used by witnesses and counterexamples -/

/-- A concrete channel record. -/
def chan (i : String) : Channel :=
  { id := i, samples_per_pixel := 1, name := i, light_path := {} }

/-- A concrete `Pixels` value with the given dimension order, sizes and
channel list; calibration fields absent. -/
def basePixels (ord : String) (nz nc nt : Nat) (chans : List Channel) : Pixels Unit :=
  { id := "Pixels:0"
    pixel_type := "uint16"
    size_x := 4
    size_y := 4
    size_z := nz
    size_c := nc
    size_t := nt
    physical_size_x := none
    physical_size_x_unit := none
    physical_size_y := none
    physical_size_y_unit := none
    physical_size_z := none
    physical_size_z_unit := none
    dimension_order := ord
    channels := chans
    tiff_data := [] }

/-- A concrete configuration with target depth count `n` and the template
img_\x7bz\x7d.tif, used by witnesses. -/
def wCfg (n : Nat) : StackConfig Unit :=
  { size_z := n
    physical_size_z := ()
    physical_size_z_unit := "um"
    filename_template := "img_{z}.tif" }


/-- The channel list of the end-to-end example document. -/
def exChannels : List Channel := [chan "Channel:0", chan "Channel:1"]

/-- The `PixelSet` of the end-to-end example document: order XYZCT,
original size_z = 1, size_c = 2, size_t = 1, two channels. -/
def exPixels : Pixels Unit := basePixels "XYZCT" 1 2 1 exChannels

/-- The end-to-end example document of spec section 8. -/
def exDoc : OME Unit :=
  { images := [{ id := "Image:0", name := "img", pixels := exPixels }] }

/-- The transformer's output on the example document with target depth
count 3. -/
def exRes : OME Unit :=
  (to_multifile_companion_ome exDoc (wCfg 3)).toOption.getD { images := [] }

/-- The first image's `PixelSet` in the transformed example document. -/
def exQ : Pixels Unit := exRes.firstPixels?.getD (basePixels "XYZCT" 1 2 1 [])

/-- A document whose first image has an original depth size of 2: order
XYZCT, size_z = 2, size_c = 1, size_t = 1, one channel.  On this input the
depth coordinate matters to the original-layout plane index, which exposes
that the transformer passes depth 0 to the calculator. -/
def cexPixels : Pixels Unit := basePixels "XYZCT" 2 1 1 [chan "Channel:0"]

/-- The document wrapping `cexPixels`. -/
def cexDoc : OME Unit :=
  { images := [{ id := "Image:0", name := "img", pixels := cexPixels }] }

/-- The transformer's output on `cexDoc` with target depth count 2. -/
def cexRes : OME Unit :=
  (to_multifile_companion_ome cexDoc (wCfg 2)).toOption.getD { images := [] }

/-- The first image's `PixelSet` in `cexRes`. -/
def cexQ : Pixels Unit := cexRes.firstPixels?.getD (basePixels "XYZCT" 2 1 1 [])

/-! ## Helper lemmas -/

theorem mapExcept_ok_length {α β : Type} {f : α → Except String β} :
    ∀ {xs : List α} {ys : List β}, mapExcept f xs = Except.ok ys → ys.length = xs.length := by
  intro xs
  induction xs with
  | nil =>
    intro ys h
    simp [mapExcept] at h
    simp [← h]
  | cons x xs ih =>
    intro ys h
    simp only [mapExcept] at h
    cases hf : f x with
    | error e => rw [hf] at h; simp at h
    | ok y =>
      rw [hf] at h
      cases hm : mapExcept f xs with
      | error e => rw [hm] at h; simp at h
      | ok ys' =>
        rw [hm] at h
        cases h
        simp [ih hm]

theorem mapExcept_ok_getElem? {α β : Type} {f : α → Except String β} :
    ∀ {xs : List α} {ys : List β}, mapExcept f xs = Except.ok ys →
      ∀ {i : Nat} {x : α}, xs[i]? = some x →
        ∃ y, f x = Except.ok y ∧ ys[i]? = some y := by
  intro xs
  induction xs with
  | nil => intro ys h i x hx; simp at hx
  | cons a xs ih =>
    intro ys h i x hx
    simp only [mapExcept] at h
    cases hf : f a with
    | error e => rw [hf] at h; simp at h
    | ok y =>
      rw [hf] at h
      cases hm : mapExcept f xs with
      | error e => rw [hm] at h; simp at h
      | ok ys' =>
        rw [hm] at h
        cases h
        cases i with
        | zero =>
          simp only [List.getElem?_cons_zero, Option.some.injEq] at hx
          subst hx
          exact ⟨y, hf, by simp⟩
        | succ i =>
          simp only [List.getElem?_cons_succ] at hx ⊢
          exact ih hm hx

theorem allPairs_succ (n nc : Nat) :
    allPairs (n + 1) nc = allPairs n nc ++ (List.range nc).map (fun c => (n, c)) := by
  simp [allPairs, List.range_succ]

theorem allPairs_length (nz nc : Nat) : (allPairs nz nc).length = nz * nc := by
  induction nz with
  | zero => simp [allPairs]
  | succ n ih => rw [allPairs_succ]; simp [ih, Nat.succ_mul]

theorem allPairs_getElem? {nc z c : Nat} (hc : c < nc) :
    ∀ {nz}, z < nz → (allPairs nz nc)[z * nc + c]? = some (z, c) := by
  intro nz
  induction nz with
  | zero => intro h; exact absurd h (Nat.not_lt_zero z)
  | succ n ih =>
    intro hz
    rw [allPairs_succ]
    rcases Nat.lt_or_ge z n with h | h
    · rw [List.getElem?_append_left]
      · exact ih h
      · rw [allPairs_length]
        have h1 : z * nc + nc ≤ n * nc := by
          have : (z + 1) * nc ≤ n * nc := Nat.mul_le_mul_right nc h
          simpa [Nat.succ_mul] using this
        omega
    · have hzn : z = n := by omega
      subst hzn
      rw [List.getElem?_append_right]
      · rw [allPairs_length, Nat.add_sub_cancel_left, List.getElem?_map,
          List.getElem?_range hc]
        rfl
      · rw [allPairs_length]; omega

theorem transform_ok_elim {R : Type} {src : OME R} {cfg : StackConfig R} {res : OME R}
    (h : to_multifile_companion_ome src cfg = Except.ok res) :
    ∃ image rest tiff,
      src.images = image :: rest ∧
      image.pixels.size_t = 1 ∧
      mapExcept (fun zc => mkTiffData image.pixels cfg zc.1 zc.2)
        (allPairs cfg.size_z image.pixels.channels.length) = Except.ok tiff ∧
      res = { images :=
        { image with pixels :=
          { image.pixels with
            physical_size_z := some cfg.physical_size_z
            physical_size_z_unit := some cfg.physical_size_z_unit
            tiff_data := tiff
            size_z := cfg.size_z } } :: rest } := by
  cases src with
  | mk images =>
    cases images with
    | nil => simp [to_multifile_companion_ome] at h
    | cons image rest =>
      simp only [to_multifile_companion_ome] at h
      by_cases ht : image.pixels.size_t = 1
      · rw [if_pos ht] at h
        cases hm : mapExcept (fun zc => mkTiffData image.pixels cfg zc.1 zc.2)
            (allPairs cfg.size_z image.pixels.channels.length) with
        | error e => rw [hm] at h; simp at h
        | ok tiff =>
          rw [hm] at h
          cases h
          exact ⟨image, rest, tiff, rfl, ht, hm, rfl⟩
      · rw [if_neg ht] at h; simp at h

/-! ## Padding and placeholder-replacement lemmas -/

set_option maxRecDepth 2000 in
theorem zeroPad_two_length : ∀ m, m < 100 → (zeroPad 2 m).length = 2 := by decide

set_option maxRecDepth 10000 in
theorem zeroPad_three_length : ∀ m, m < 1000 → (zeroPad 3 m).length = 3 := by decide

theorem hasZ_eq_false_tail {a : Char} {l : List Char} (h : hasZ (a :: l) = false) :
    hasZ l = false := by
  rw [hasZ.eq_def] at h
  split at h
  · exact absurd h (by simp)
  · next c r xfail heq => cases heq; exact h
  · next heq => exact absurd heq (by simp)

theorem replaceZChars_no_placeholder {repl : List Char} :
    ∀ {l : List Char}, hasZ l = false → replaceZChars repl l = l := by
  intro l
  induction l with
  | nil => intro _; rfl
  | cons a rest ih =>
    intro h
    rw [replaceZChars.eq_def]
    split
    · next x rest2 heq =>
      rw [heq] at h
      simp [hasZ] at h
    · next x c r xfail heq =>
      cases heq
      rw [ih (hasZ_eq_false_tail h)]
    · next x heq => exact absurd heq (by simp)

theorem replaceZChars_split {repl : List Char} :
    ∀ {a : List Char} (b : List Char), hasZ a = false →
      replaceZChars repl (a ++ '{' :: 'z' :: '}' :: b) =
        a ++ repl ++ replaceZChars repl b := by
  intro a
  induction a with
  | nil => intro b _; simp [replaceZChars]
  | cons x a' ih =>
    intro b h
    rw [List.cons_append, replaceZChars.eq_def]
    split
    · next y rest2 heq =>
      rcases a' with _ | ⟨d, a''⟩
      · simp at heq
      · rcases a'' with _ | ⟨e, a'''⟩
        · simp at heq
        · simp only [List.cons_append, List.cons.injEq] at heq
          obtain ⟨hx, hd, he, -⟩ := heq
          subst hx; subst hd; subst he
          simp [hasZ] at h
    · next y c r xfail heq =>
      cases heq
      rw [ih b (hasZ_eq_false_tail h)]
      simp
    · next y heq => exact absurd heq (by simp)

/-! ## Inversion of the loop body -/

theorem mkTiffData_ok_elim {R : Type} {p : Pixels R} {cfg : StackConfig R} {z c : Nat}
    {y : TiffData} (h : mkTiffData p cfg z c = Except.ok y) :
    ∃ ifdv fn, get_relative_ifd_index { t := 0, z := 0, c := c } p = Except.ok ifdv ∧
      cfg.filename z = Except.ok fn ∧
      y = { ifd := some ifdv
            plane_count := some 1
            first_c := some c
            first_z := some z
            first_t := some 0
            uuid := some { file_name := fn } } := by
  unfold mkTiffData at h
  cases hg : get_relative_ifd_index { t := 0, z := 0, c := c } p with
  | error e => rw [hg] at h; simp at h
  | ok ifdv =>
    rw [hg] at h
    cases hf : cfg.filename z with
    | error e => rw [hf] at h; simp at h
    | ok fn =>
      rw [hf] at h
      cases h
      exact ⟨ifdv, fn, rfl, rfl, rfl⟩

/-! ## Claim theorems -/

/-- C2: for each of the six valid dimension-order strings, and for all
declared sizes and selection indices, the Plane-Index Calculator returns
i1 + n1 * i2 + n1 * n2 * i3, where axis1 axis2 axis3 is the order string
after the XY prefix read fastest to slowest, nk the declared size of axis k
and ik the matching selection index. -/
theorem calculator_matches_spec_formula {R : Type} (p : Pixels R) (sel : Selection) :
    (p.dimension_order = "XYZCT" → get_relative_ifd_index sel p =
      Except.ok (formulaIndex p.size_z p.size_c p.size_t sel.z sel.c sel.t)) ∧
    (p.dimension_order = "XYZTC" → get_relative_ifd_index sel p =
      Except.ok (formulaIndex p.size_z p.size_t p.size_c sel.z sel.t sel.c)) ∧
    (p.dimension_order = "XYCTZ" → get_relative_ifd_index sel p =
      Except.ok (formulaIndex p.size_c p.size_t p.size_z sel.c sel.t sel.z)) ∧
    (p.dimension_order = "XYCZT" → get_relative_ifd_index sel p =
      Except.ok (formulaIndex p.size_c p.size_z p.size_t sel.c sel.z sel.t)) ∧
    (p.dimension_order = "XYTCZ" → get_relative_ifd_index sel p =
      Except.ok (formulaIndex p.size_t p.size_c p.size_z sel.t sel.c sel.z)) ∧
    (p.dimension_order = "XYTZC" → get_relative_ifd_index sel p =
      Except.ok (formulaIndex p.size_t p.size_z p.size_c sel.t sel.z sel.c)) := by
  refine ⟨?_, ?_, ?_, ?_, ?_, ?_⟩ <;> intro h <;>
    simp [get_relative_ifd_index, h, formulaIndex]

/-- Witness for C2 at the spec's own example: order XYZCT, sizes Z=2, C=3,
T=1, selection z=1, c=2, t=0 yields index 5. -/
theorem calculator_matches_spec_formula_witness :
    get_relative_ifd_index { t := 0, z := 1, c := 2 } (basePixels "XYZCT" 2 3 1 []) =
      Except.ok (formulaIndex 2 3 1 1 2 0) ∧
    formulaIndex 2 3 1 1 2 0 = 5 :=
  ⟨(calculator_matches_spec_formula (basePixels "XYZCT" 2 3 1 [])
      { t := 0, z := 1, c := 2 }).1 rfl,
   by decide⟩

/-- C7: for every dimension-order string that is not one of the six valid
permutations, and for every sizes/selection input, the Plane-Index Calculator
fails fatally rather than returning an index. -/
theorem calculator_rejects_invalid_order {R : Type} (p : Pixels R) (sel : Selection)
    (h1 : p.dimension_order ≠ "XYZCT") (h2 : p.dimension_order ≠ "XYZTC")
    (h3 : p.dimension_order ≠ "XYCTZ") (h4 : p.dimension_order ≠ "XYCZT")
    (h5 : p.dimension_order ≠ "XYTCZ") (h6 : p.dimension_order ≠ "XYTZC") :
    get_relative_ifd_index sel p = Except.error "Invalid dimension order" := by
  unfold get_relative_ifd_index
  split <;> simp_all

/-- C6: for every depth index z in range and every template, the Filename
Policy substitutes a numeric token zero-padded to a width fixed by the target
depth count (2 digits for counts in 10..99, 3 digits for counts in
100..999), the remainder of the template passes through unchanged (the parts
of the template around a placeholder are reproduced verbatim, and a template
without a placeholder is returned unchanged), and any count of 1000 or more
is a fatal error. -/
theorem filename_policy_width_and_template {R : Type} (cfg : StackConfig R) (z : Nat) :
    (10 ≤ cfg.size_z → cfg.size_z ≤ 99 → z < cfg.size_z →
      cfg.filename z = Except.ok (strReplaceZ cfg.filename_template (zeroPad 2 (z + 1))) ∧
      (zeroPad 2 (z + 1)).length = 2) ∧
    (100 ≤ cfg.size_z → cfg.size_z ≤ 999 → z < cfg.size_z →
      cfg.filename z = Except.ok (strReplaceZ cfg.filename_template (zeroPad 3 (z + 1))) ∧
      (zeroPad 3 (z + 1)).length = 3) ∧
    (1000 ≤ cfg.size_z → cfg.filename z = Except.error "Invalid size_z") ∧
    (∀ (a b repl : List Char), hasZ a = false →
      replaceZChars repl (a ++ '{' :: 'z' :: '}' :: b) =
        a ++ repl ++ replaceZChars repl b) ∧
    (∀ (l repl : List Char), hasZ l = false → replaceZChars repl l = l) := by
  refine ⟨?_, ?_, ?_, ?_, ?_⟩
  · intro h1 h2 hz
    constructor
    · unfold StackConfig.filename
      split_ifs with hA hB hC
      · exfalso; omega
      · rfl
      · exfalso; omega
      · exfalso; omega
    · exact zeroPad_two_length (z + 1) (by omega)
  · intro h1 h2 hz
    constructor
    · unfold StackConfig.filename
      split_ifs with hA hB hC
      · exfalso; omega
      · exfalso; omega
      · rfl
      · exfalso; omega
    · exact zeroPad_three_length (z + 1) (by omega)
  · intro h1
    unfold StackConfig.filename
    split_ifs with hA hB hC
    · exfalso; omega
    · exfalso; omega
    · exfalso; omega
    · rfl
  · intro a b repl ha
    exact replaceZChars_split b ha
  · intro l repl hl
    exact replaceZChars_no_placeholder hl

/-- Witness for C6: with count 10, depth indices 0 and 9 give the distinct
2-digit tokens 01 and 10; with count 150, depth 0 gives the 3-digit token
001; count 1000 is rejected. -/
theorem filename_policy_width_and_template_witness :
    (wCfg 10).filename 0 = Except.ok "img_01.tif" ∧
    (wCfg 10).filename 9 = Except.ok "img_10.tif" ∧
    (wCfg 150).filename 0 = Except.ok "img_001.tif" ∧
    (wCfg 1000).filename 0 = Except.error "Invalid size_z" ∧
    zeroPad 2 1 ≠ zeroPad 2 10 := by
  refine ⟨?_, ?_, ?_, ?_, by decide⟩
  · rw [((filename_policy_width_and_template (wCfg 10) 0).1
      (by decide) (by decide) (by decide)).1]
    decide
  · rw [((filename_policy_width_and_template (wCfg 10) 9).1
      (by decide) (by decide) (by decide)).1]
    decide
  · rw [((filename_policy_width_and_template (wCfg 150) 0).2.1
      (by decide) (by decide) (by decide)).1]
    decide
  · exact (filename_policy_width_and_template (wCfg 1000) 0).2.2.1 (by decide)

/-- C9: for every target depth count in 1..99 and every in-range depth index
z, the Filename Policy's numeric token is the 1-based value z + 1 zero-padded
to exactly 2 digits; counts 1..9 use the same 2-digit 1-based convention as
counts 10..99. -/
theorem filename_small_counts_one_based_two_digit {R : Type} (cfg : StackConfig R)
    (z : Nat) (h1 : 1 ≤ cfg.size_z) (h2 : cfg.size_z ≤ 99) (hz : z < cfg.size_z) :
    cfg.filename z = Except.ok (strReplaceZ cfg.filename_template (zeroPad 2 (z + 1))) ∧
    (zeroPad 2 (z + 1)).length = 2 := by
  constructor
  · unfold StackConfig.filename
    split_ifs with hA hB hC
    · rfl
    · rfl
    · exfalso; omega
    · exfalso; omega
  · exact zeroPad_two_length (z + 1) (by omega)

/-- Witness for C9: count 1, depth 0 yields the token 01. -/
theorem filename_small_counts_one_based_two_digit_witness :
    (wCfg 1).filename 0 = Except.ok "img_01.tif" ∧ zeroPad 2 (0 + 1) = "01" := by
  refine ⟨?_, by decide⟩
  rw [(filename_small_counts_one_based_two_digit (wCfg 1) 0
    (by decide) (by decide) (by decide)).1]
  decide

/-- C8: on a document with no Image, or whose first Image has size_t
different from 1, the Companion Transformer fails fatally: it returns an
error and no companion document or plane records are produced. -/
theorem transformer_precondition_failures {R : Type} (src : OME R) (cfg : StackConfig R) :
    (src.images = [] → to_multifile_companion_ome src cfg =
      Except.error "called Option::unwrap on a None value") ∧
    (∀ image rest, src.images = image :: rest → image.pixels.size_t ≠ 1 →
      to_multifile_companion_ome src cfg =
        Except.error "assertion failed: size_t == 1") := by
  constructor
  · intro h
    simp [to_multifile_companion_ome, h]
  · intro image rest h ht
    simp [to_multifile_companion_ome, h, ht]

/-- Witness for C8: the empty document is rejected, and a document whose
first image has size_t = 2 is rejected. -/
theorem transformer_precondition_failures_witness :
    to_multifile_companion_ome (R := Unit) { images := [] } (wCfg 5) =
      Except.error "called Option::unwrap on a None value" ∧
    to_multifile_companion_ome
      { images := [{ id := "Image:0", name := "img",
                     pixels := basePixels "XYZCT" 1 1 2 [chan "Channel:0"] }] }
      (wCfg 5) = Except.error "assertion failed: size_t == 1" :=
  ⟨(transformer_precondition_failures { images := [] } (wCfg 5)).1 rfl,
   (transformer_precondition_failures
      { images := [{ id := "Image:0", name := "img",
                     pixels := basePixels "XYZCT" 1 1 2 [chan "Channel:0"] }] }
      (wCfg 5)).2
     { id := "Image:0", name := "img",
       pixels := basePixels "XYZCT" 1 1 2 [chan "Channel:0"] } [] rfl (by decide)⟩

/-- C10: with a target depth count of 0 on a document meeting the other
preconditions, the transformer succeeds, returning a document whose plane
list is empty and whose size_z is 0, even though the Filename Policy itself
fails fatally for count 0 — the loop body that would invoke it never runs. -/
theorem transformer_zero_depth_count {R : Type} {src : OME R} {cfg : StackConfig R}
    {image : Image R} {rest : List (Image R)}
    (himg : src.images = image :: rest) (ht : image.pixels.size_t = 1)
    (hcfg : cfg.size_z = 0) :
    (∃ res, to_multifile_companion_ome src cfg = Except.ok res ∧
      ∃ q, res.firstPixels? = some q ∧ q.tiff_data = [] ∧ q.size_z = 0) ∧
    (∀ z, cfg.filename z = Except.error "Invalid size_z") := by
  constructor
  · have hres : to_multifile_companion_ome src cfg = Except.ok
        { images := { image with pixels := { image.pixels with
            physical_size_z := some cfg.physical_size_z
            physical_size_z_unit := some cfg.physical_size_z_unit
            tiff_data := ([] : List TiffData)
            size_z := cfg.size_z } } :: rest } := by
      simp [to_multifile_companion_ome, himg, hcfg, ht, allPairs, mapExcept]
    exact ⟨_, hres, _, rfl, rfl, hcfg⟩
  · intro z
    unfold StackConfig.filename
    split_ifs with hA hB hC
    · exfalso; omega
    · exfalso; omega
    · exfalso; omega
    · rfl

/-- Witness for C10 at a concrete single-channel document and target depth
count 0. -/
theorem transformer_zero_depth_count_witness :
    ((∃ res, to_multifile_companion_ome cexDoc (wCfg 0) = Except.ok res ∧
      ∃ q, res.firstPixels? = some q ∧ q.tiff_data = [] ∧ q.size_z = 0) ∧
    (∀ z, (wCfg 0).filename z = Except.error "Invalid size_z")) :=
  @transformer_zero_depth_count Unit cexDoc (wCfg 0)
    { id := "Image:0", name := "img", pixels := cexPixels } [] rfl (by decide) rfl

/-- Witness for C7: the order string ZYX is rejected. -/
theorem calculator_rejects_invalid_order_witness :
    get_relative_ifd_index { t := 0, z := 0, c := 0 } (basePixels "ZYX" 2 3 1 []) =
      Except.error "Invalid dimension order" :=
  calculator_rejects_invalid_order (basePixels "ZYX" 2 3 1 [])
    { t := 0, z := 0, c := 0 }
    (by decide) (by decide) (by decide) (by decide) (by decide) (by decide)

/-- C3: whenever the transformer succeeds, the resulting plane list has
exactly target-depth-count times channel-count entries; and the transformer's
result does not depend on the original plane list at all (replacing it by any
list gives the same output). -/
theorem transformer_output_count {R : Type} (src : OME R) (cfg : StackConfig R) :
    (∀ res, to_multifile_companion_ome src cfg = Except.ok res →
      ∃ p q, src.firstPixels? = some p ∧ res.firstPixels? = some q ∧
        q.tiff_data.length = cfg.size_z * p.channels.length) ∧
    (∀ l, to_multifile_companion_ome (src.withFirstTiff l) cfg =
      to_multifile_companion_ome src cfg) := by
  constructor
  · intro res h
    obtain ⟨image, rest, tiff, himg, ht, hm, hres⟩ := transform_ok_elim h
    refine ⟨image.pixels,
      { image.pixels with
        physical_size_z := some cfg.physical_size_z
        physical_size_z_unit := some cfg.physical_size_z_unit
        tiff_data := tiff
        size_z := cfg.size_z }, ?_, ?_, ?_⟩
    · simp [OME.firstPixels?, himg]
    · simp [OME.firstPixels?, hres]
    · have hlen := mapExcept_ok_length hm
      simpa [allPairs_length] using hlen
  · intro l
    cases src with
    | mk images =>
      cases images with
      | nil => rfl
      | cons im rest =>
        cases im with
        | mk iid iname ipx =>
          cases ipx
          rfl

/-- Witness for C3 at the spec's end-to-end example (two channels, target
depth count 3: six records), with an arbitrary junk original plane list. -/
theorem transformer_output_count_witness :
    (∃ p q, exDoc.firstPixels? = some p ∧ exRes.firstPixels? = some q ∧
      q.tiff_data.length = (wCfg 3).size_z * p.channels.length) ∧
    to_multifile_companion_ome
      (exDoc.withFirstTiff [{ ifd := some 41, plane_count := none, first_c := none,
                              first_z := none, first_t := none, uuid := none }])
      (wCfg 3) = to_multifile_companion_ome exDoc (wCfg 3) :=
  ⟨(transformer_output_count exDoc (wCfg 3)).1 exRes (by decide),
   (transformer_output_count exDoc (wCfg 3)).2
     [{ ifd := some 41, plane_count := none, first_c := none,
        first_z := none, first_t := none, uuid := none }]⟩

/-- C5: whenever the transformer succeeds, the first image's size_x, size_y,
size_c, size_t (which equals 1), dimension-order string and channel list are
unchanged, and size_z is set to the configured target depth count. -/
theorem transformer_preserves_frame {R : Type} {src : OME R} {cfg : StackConfig R}
    {res : OME R} {p q : Pixels R}
    (h : to_multifile_companion_ome src cfg = Except.ok res)
    (hp : src.firstPixels? = some p) (hq : res.firstPixels? = some q) :
    q.size_x = p.size_x ∧ q.size_y = p.size_y ∧ q.size_c = p.size_c ∧
    q.size_t = p.size_t ∧ q.size_t = 1 ∧
    q.dimension_order = p.dimension_order ∧ q.channels = p.channels ∧
    q.size_z = cfg.size_z := by
  obtain ⟨image, rest, tiff, himg, ht, hm, hres⟩ := transform_ok_elim h
  simp only [OME.firstPixels?, himg, List.head?_cons, Option.map_some',
    Option.some.injEq] at hp
  simp only [hres, OME.firstPixels?, List.head?_cons, Option.map_some',
    Option.some.injEq] at hq
  subst hp
  subst hq
  exact ⟨rfl, rfl, rfl, rfl, ht, rfl, rfl, rfl⟩

/-- Witness for C5 at the spec's end-to-end example. -/
theorem transformer_preserves_frame_witness :
    exQ.size_x = exPixels.size_x ∧ exQ.size_y = exPixels.size_y ∧
    exQ.size_c = exPixels.size_c ∧ exQ.size_t = exPixels.size_t ∧
    exQ.size_t = 1 ∧ exQ.dimension_order = exPixels.dimension_order ∧
    exQ.channels = exPixels.channels ∧ exQ.size_z = (wCfg 3).size_z :=
  @transformer_preserves_frame Unit exDoc (wCfg 3) exRes exPixels exQ
    (by decide) (by decide) (by decide)

/-- C4: whenever the transformer succeeds on a document whose channel-list
length equals size_c (the data model's invariant), the record emitted for the
pair (z, c) sits at list position z * size_c + c and has plane-count 1,
first-channel c, first-depth z, first-time 0, and a file reference equal to
the Filename Policy output for depth z. -/
theorem transformer_record_contents {R : Type} {src : OME R} {cfg : StackConfig R}
    {res : OME R} {p q : Pixels R}
    (h : to_multifile_companion_ome src cfg = Except.ok res)
    (hp : src.firstPixels? = some p) (hq : res.firstPixels? = some q)
    (hcl : p.channels.length = p.size_c) {z c : Nat}
    (hz : z < cfg.size_z) (hc : c < p.size_c) :
    ∃ ifdv fn, get_relative_ifd_index { t := 0, z := 0, c := c } p = Except.ok ifdv ∧
      cfg.filename z = Except.ok fn ∧
      q.tiff_data[z * p.size_c + c]? = some
        { ifd := some ifdv
          plane_count := some 1
          first_c := some c
          first_z := some z
          first_t := some 0
          uuid := some { file_name := fn } } := by
  obtain ⟨image, rest, tiff, himg, ht, hm, hres⟩ := transform_ok_elim h
  simp only [OME.firstPixels?, himg, List.head?_cons, Option.map_some',
    Option.some.injEq] at hp
  simp only [hres, OME.firstPixels?, List.head?_cons, Option.map_some',
    Option.some.injEq] at hq
  subst hp
  subst hq
  have hpair : (allPairs cfg.size_z image.pixels.channels.length)[z *
      image.pixels.channels.length + c]? = some (z, c) :=
    allPairs_getElem? (by rw [hcl]; exact hc) hz
  obtain ⟨y, hy, hyi⟩ := mapExcept_ok_getElem? hm hpair
  obtain ⟨ifdv, fn, hg, hf, hyy⟩ := mkTiffData_ok_elim hy
  refine ⟨ifdv, fn, hg, hf, ?_⟩
  rw [hcl] at hyi
  rw [hyy] at hyi
  exact hyi

/-- Witness for C4 at the spec's end-to-end example, pair (z, c) = (1, 1):
the record at position 1 * 2 + 1 = 3. -/
theorem transformer_record_contents_witness :
    ∃ ifdv fn,
      get_relative_ifd_index { t := 0, z := 0, c := 1 } exPixels = Except.ok ifdv ∧
      (wCfg 3).filename 1 = Except.ok fn ∧
      exQ.tiff_data[1 * exPixels.size_c + 1]? = some
        { ifd := some ifdv
          plane_count := some 1
          first_c := some 1
          first_z := some 1
          first_t := some 0
          uuid := some { file_name := fn } } :=
  @transformer_record_contents Unit exDoc (wCfg 3) exRes exPixels exQ
    (by decide) (by decide) (by decide) (by decide) 1 1 (by decide) (by decide)

/-- Counterexample to C1 as stated: on a document with original size_z = 2
(order XYZCT, one channel) and target depth count 2, the record emitted for
the pair (z, c) = (1, 0) carries IFD 0, whereas the Plane-Index Calculator
applied to selection (t = 0, z = 1, c = 0) against the original sizes gives
index 1 — the transformer passes depth 0, not z, to the calculator. -/
theorem transformer_ifd_not_original_index_cex :
    ((to_multifile_companion_ome cexDoc (wCfg 2)).toOption.bind
        (fun o => o.firstPixels?)).bind
      (fun q => q.tiff_data[1 * cexPixels.size_c + 0]?.bind TiffData.ifd) = some 0 ∧
    (get_relative_ifd_index { t := 0, z := 1, c := 0 } cexPixels).toOption = some 1 ∧
    ((to_multifile_companion_ome cexDoc (wCfg 2)).toOption.bind
        (fun o => o.firstPixels?)).bind
      (fun q => q.tiff_data[1 * cexPixels.size_c + 0]?.bind TiffData.ifd) ≠
      (get_relative_ifd_index { t := 0, z := 1, c := 0 } cexPixels).toOption := by
  decide

/-- C1 as amended: whenever the transformer succeeds on a document whose
channel-list length equals size_c, the record emitted for the pair (z, c)
carries an IFD equal to the index the Plane-Index Calculator computes for
selection (t = 0, z = 0, c) — the depth coordinate handed to the calculator
is always 0 — against the original, pre-transformation axis sizes. -/
theorem transformer_ifd_ignores_depth {R : Type} {src : OME R} {cfg : StackConfig R}
    {res : OME R} {p q : Pixels R}
    (h : to_multifile_companion_ome src cfg = Except.ok res)
    (hp : src.firstPixels? = some p) (hq : res.firstPixels? = some q)
    (hcl : p.channels.length = p.size_c) {z c : Nat}
    (hz : z < cfg.size_z) (hc : c < p.size_c) :
    (q.tiff_data[z * p.size_c + c]?.bind TiffData.ifd) =
      (get_relative_ifd_index { t := 0, z := 0, c := c } p).toOption := by
  obtain ⟨image, rest, tiff, himg, ht, hm, hres⟩ := transform_ok_elim h
  simp only [OME.firstPixels?, himg, List.head?_cons, Option.map_some',
    Option.some.injEq] at hp
  simp only [hres, OME.firstPixels?, List.head?_cons, Option.map_some',
    Option.some.injEq] at hq
  subst hp
  subst hq
  have hpair : (allPairs cfg.size_z image.pixels.channels.length)[z *
      image.pixels.channels.length + c]? = some (z, c) :=
    allPairs_getElem? (by rw [hcl]; exact hc) hz
  obtain ⟨y, hy, hyi⟩ := mapExcept_ok_getElem? hm hpair
  obtain ⟨ifdv, fn, hg, hf, hyy⟩ := mkTiffData_ok_elim hy
  rw [hcl] at hyi
  rw [hyy] at hyi
  rw [hyi, hg]
  rfl

/-- Witness for the amended C1 on the counterexample document, pair
(z, c) = (1, 0): both sides are IFD 0. -/
theorem transformer_ifd_ignores_depth_witness :
    cexQ.tiff_data[1 * cexPixels.size_c + 0]?.bind TiffData.ifd =
      (get_relative_ifd_index { t := 0, z := 0, c := 0 } cexPixels).toOption :=
  @transformer_ifd_ignores_depth Unit cexDoc (wCfg 2) cexRes cexPixels cexQ
    (by decide) (by decide) (by decide) (by decide) 1 0 (by decide) (by decide)

end Omecat
